import Mathlib

/-!
Verification of the citizen-report-grid access-control and status-transition
core: a shallow embedding of the SQL schema, the row-level-security policy
set and triggers of the migration file, and of the client pages
(`SubmitReport`, `Moderate`, `Dashboard`) that issue requests against it.

Conventions of the embedding:
* UUIDs and timestamps are modelled as `Nat`.
* `auth.uid()` is an `Option UserId` (`none` = anonymous caller); SQL `NULL`
  comparison semantics make every `auth.uid() = col` test false for `none`.
* Tables are lists of rows; a denied per-row write is an `Except.error`
  (in PostgREST terms: the row is not updated / the insert is refused).
* Per PostgreSQL semantics, an `UPDATE` policy declared with only a `USING`
  clause applies that same expression as the `WITH CHECK` test on the
  updated row; `updateReport` below models both evaluations.
-/

namespace CitizenReportGrid

/-- SQL enum `app_role` from the migration: `('USER', 'MODERATOR')`. -/
inductive AppRole where
  | USER
  | MODERATOR
deriving DecidableEq, Repr

/-- SQL enum `report_category`:
`('power_outage', 'water_cut', 'road_damage', 'other')`. -/
inductive ReportCategory where
  | power_outage
  | water_cut
  | road_damage
  | other
deriving DecidableEq, Repr

/-- SQL enum `report_status`: `('pending', 'verified', 'rejected')`. -/
inductive ReportStatus where
  | pending
  | verified
  | rejected
deriving DecidableEq, Repr

abbrev UserId := Nat
abbrev Timestamp := Nat

/-- A row of `public.user_roles` (`id`, `user_id`, `role`, `created_at`). -/
structure UserRoleRow where
  id : Nat
  user_id : UserId
  role : AppRole
  created_at : Timestamp
deriving DecidableEq, Repr

/-- A row of `public.reports` with the columns of the migration. -/
structure Report where
  id : Nat
  title : String
  category : ReportCategory
  description : String
  image_url : Option String
  location : Option String
  status : ReportStatus
  user_id : UserId
  verified_by : Option UserId
  verified_at : Option Timestamp
  created_at : Timestamp
  updated_at : Timestamp
deriving DecidableEq, Repr

/-- Function `public.has_role(_user_id, _role)`: `EXISTS (SELECT 1 FROM user_roles
WHERE user_id = _user_id AND role = _role)`.  The first argument is the
`user_roles` table; the caller identity is an `Option` so that
`has_role(NULL, r)` is false, as in SQL. -/
def has_role (roles : List UserRoleRow) (uid : Option UserId) (r : AppRole) : Bool :=
  roles.any fun row => some row.user_id == uid && row.role == r

/-- The `USING` clause of the policy "Anyone can view verified reports":
`status = 'verified' OR auth.uid() = user_id OR has_role(auth.uid(), 'MODERATOR')`. -/
def reportSelectUsing (roles : List UserRoleRow) (uid : Option UserId) (r : Report) : Bool :=
  r.status == .verified || uid == some r.user_id || has_role roles uid .MODERATOR

/-- A `SELECT` over `reports` under row-level security: denied rows are
filtered out of the result set, never surfaced as an error. -/
def selectReports (roles : List UserRoleRow) (uid : Option UserId)
    (db : List Report) : List Report :=
  db.filter (reportSelectUsing roles uid)

/-- The `WITH CHECK` clause of the policy "Users can create reports":
`auth.uid() = user_id`. -/
def reportInsertCheck (uid : Option UserId) (r : Report) : Bool :=
  uid == some r.user_id

/-- Disjunction of the two `UPDATE` policies on `reports`
("Users can update their own pending reports" and
"Moderators can update any report"); policies of the same command are
permissive, so they are OR-ed:
`(auth.uid() = user_id AND status = 'pending') OR has_role(auth.uid(), 'MODERATOR')`. -/
def reportUpdatePolicies (roles : List UserRoleRow) (uid : Option UserId) (r : Report) : Bool :=
  (uid == some r.user_id && r.status == .pending) || has_role roles uid .MODERATOR

/-- An insert payload for `reports` as a client may send it: the columns the
client flows set, plus `status`, which the schema defaults but does not
forbid in the payload.  `none` for `status` means "column absent, apply the
`DEFAULT 'pending'`". -/
structure ReportInsertPayload where
  title : String
  category : ReportCategory
  description : String
  image_url : Option String
  location : Option String
  status : Option ReportStatus
  user_id : UserId
deriving DecidableEq, Repr

/-- Build the stored row from an insert payload: `id` from `gen_random_uuid()`,
`status` defaulting to `'pending'` only when absent from the payload,
`verified_by`/`verified_at` NULL, `created_at`/`updated_at` from `now()`. -/
def applyReportDefaults (p : ReportInsertPayload) (id : Nat) (now : Timestamp) : Report :=
  { id := id
    title := p.title
    category := p.category
    description := p.description
    image_url := p.image_url
    location := p.location
    status := p.status.getD .pending
    user_id := p.user_id
    verified_by := none
    verified_at := none
    created_at := now
    updated_at := now }

/-- An `INSERT INTO reports` under row-level security: the new row must pass the
`WITH CHECK` of "Users can create reports". -/
def insertReport (uid : Option UserId) (p : ReportInsertPayload) (id : Nat)
    (now : Timestamp) (db : List Report) : Except String (List Report) :=
  let row := applyReportDefaults p id now
  if reportInsertCheck uid row then .ok (db ++ [row])
  else .error "new row violates row-level security policy for table reports"

/-- An update payload for `reports`: `none` means the column is absent from
the `UPDATE ... SET` list and keeps its current value.  Nullable columns
carry `Option (Option _)` so a client can also set them to NULL. -/
structure ReportUpdatePayload where
  title : Option String := none
  category : Option ReportCategory := none
  description : Option String := none
  image_url : Option (Option String) := none
  location : Option (Option String) := none
  status : Option ReportStatus := none
  verified_by : Option (Option UserId) := none
  verified_at : Option (Option Timestamp) := none
  updated_at : Option Timestamp := none
deriving DecidableEq, Repr

/-- Apply an update payload to a row (the `SET` list of the `UPDATE`). -/
def applyUpdate (p : ReportUpdatePayload) (r : Report) : Report :=
  { r with
    title := p.title.getD r.title
    category := p.category.getD r.category
    description := p.description.getD r.description
    image_url := p.image_url.getD r.image_url
    location := p.location.getD r.location
    status := p.status.getD r.status
    verified_by := p.verified_by.getD r.verified_by
    verified_at := p.verified_at.getD r.verified_at
    updated_at := p.updated_at.getD r.updated_at }

/-- Trigger function `public.update_updated_at_column()`: a `BEFORE UPDATE`
trigger that sets `NEW.updated_at = now()` and returns `NEW`. -/
def update_updated_at_column (now : Timestamp) (new : Report) : Report :=
  { new with updated_at := now }

/-- One-row `UPDATE` on `reports` under row-level security: the existing row
must pass the `USING` disjunction (otherwise the row is invisible to the
update and nothing happens), the `BEFORE UPDATE` trigger stamps
`updated_at`, and the resulting row must pass the same disjunction again —
PostgreSQL applies a policy's `USING` as its `WITH CHECK` when the latter is
omitted, as both `UPDATE` policies here omit it. -/
def updateReport (roles : List UserRoleRow) (uid : Option UserId)
    (p : ReportUpdatePayload) (now : Timestamp) (r : Report) : Except String Report :=
  if reportUpdatePolicies roles uid r then
    let newRow := update_updated_at_column now (applyUpdate p r)
    if reportUpdatePolicies roles uid newRow then .ok newRow
    else .error "new row violates row-level security policy for table reports"
  else .error "row is not visible to UPDATE under row-level security"

/-- The update issued by `updateStatus` in `Moderate.tsx`:
`supabase.from("reports").update({ status })` — the payload carries the
status column and nothing else. -/
def updateStatusPayload (s : ReportStatus) : ReportUpdatePayload :=
  { status := some s }

/-- The `WITH CHECK` clause of the policy "Users can insert their own role on
signup": `auth.uid() = user_id AND role = 'USER'`. -/
def userRolesInsertCheck (uid : Option UserId) (row : UserRoleRow) : Bool :=
  uid == some row.user_id && row.role == .USER

/-- An insert reaching the `user_roles` table (after any policy check):
the `UNIQUE(user_id, role)` constraint rejects a duplicate pair. -/
def insertUserRoleRaw (row : UserRoleRow) (db : List UserRoleRow) :
    Except String (List UserRoleRow) :=
  if db.any (fun r => r.user_id == row.user_id && r.role == row.role) then
    .error "duplicate key value violates unique constraint user_roles_user_id_role_key"
  else .ok (db ++ [row])

/-- Client `INSERT INTO user_roles` under row-level security: the row must
pass the signup policy's `WITH CHECK`, then the unique constraint. -/
def insertUserRole (uid : Option UserId) (row : UserRoleRow) (db : List UserRoleRow) :
    Except String (List UserRoleRow) :=
  if userRolesInsertCheck uid row then insertUserRoleRaw row db
  else .error "new row violates row-level security policy for table user_roles"

/-- Trigger function `public.handle_new_user()` fired `AFTER INSERT ON
auth.users`: inserts `(user_id, role) = (NEW.id, 'USER')` into `user_roles`.
It runs `SECURITY DEFINER`, so row-level security does not apply, but the
unique constraint does. -/
def handle_new_user (rowId : Nat) (newUserId : UserId) (now : Timestamp)
    (db : List UserRoleRow) : Except String (List UserRoleRow) :=
  insertUserRoleRaw { id := rowId, user_id := newUserId, role := .USER, created_at := now } db

/-- The table state after a client insert attempt: unchanged when the insert
is refused. -/
def clientInsertStep (db : List UserRoleRow) (attempt : Option UserId × UserRoleRow) :
    List UserRoleRow :=
  match insertUserRole attempt.1 attempt.2 db with
  | .ok db2 => db2
  | .error _ => db

/-- The table state after a sequence of client insert attempts. -/
def runClientInserts (db : List UserRoleRow)
    (attempts : List (Option UserId × UserRoleRow)) : List UserRoleRow :=
  attempts.foldl clientInsertStep db

/-- The table state after a raw (constraint-only) insert attempt: unchanged
when the unique constraint rejects it. -/
def applyRawInsert (db : List UserRoleRow) (row : UserRoleRow) : List UserRoleRow :=
  match insertUserRoleRaw row db with
  | .ok db2 => db2
  | .error _ => db

/-- Parser for `z.enum(["power_outage", "water_cut", "road_damage", "other"])`
in `reportSchema` of `SubmitReport`: the raw select value must be one of the
four literal category strings. -/
def parseCategory : String → Option ReportCategory
  | "power_outage" => some .power_outage
  | "water_cut" => some .water_cut
  | "road_damage" => some .road_damage
  | "other" => some .other
  | _ => none

/-- JavaScript `String.prototype.trim` as zod's `.trim()` applies it:
strip leading and trailing whitespace (modelled with `Char.isWhitespace`).
Defined by structural recursion over the character list so it evaluates. -/
def jsTrim (s : String) : String :=
  ⟨((s.data.dropWhile Char.isWhitespace).reverse.dropWhile Char.isWhitespace).reverse⟩

/-- The validated data produced by a successful `reportSchema.safeParse`:
trimmed title and description, parsed category, trimmed optional location. -/
structure ValidatedReport where
  title : String
  category : ReportCategory
  description : String
  location : Option String
deriving DecidableEq, Repr

/-- Function `reportSchema.safeParse` of `SubmitReport`, checks in schema key order
with zod's first error message:
`title: z.string().trim().min(1).max(200)`,
`category: z.enum([...])`,
`description: z.string().trim().min(1).max(2000)`,
`location: z.string().trim().max(500).optional()`.
zod's `.trim()` transforms before checking, so the bounds apply to the
trimmed value and the validated data is trimmed. -/
def reportSchemaParse (title category description : String)
    (location : Option String) : Except String ValidatedReport :=
  let t := jsTrim title
  if t.length < 1 then .error "Title is required"
  else if 200 < t.length then .error "Title must be less than 200 characters"
  else
    match parseCategory category with
    | none => .error "Category is required"
    | some c =>
      let d := jsTrim description
      if d.length < 1 then .error "Description is required"
      else if 2000 < d.length then .error "Description must be less than 2000 characters"
      else
        match location with
        | none => .ok { title := t, category := c, description := d, location := none }
        | some l =>
          let lt := jsTrim l
          if 500 < lt.length then .error "Location must be less than 500 characters"
          else .ok { title := t, category := c, description := d, location := some lt }

/-- Outcome of the submission flow: either the caller was unauthenticated,
or validation failed with a field-level message, or an insert request was
issued to the policy engine with the given payload. -/
inductive SubmitOutcome where
  | noUser
  | validationFailed (message : String)
  | insertIssued (payload : ReportInsertPayload)
deriving DecidableEq, Repr

/-- True exactly on the `validationFailed` outcome. -/
def SubmitOutcome.isValidationFailed : SubmitOutcome → Bool
  | .validationFailed _ => true
  | _ => false

/-- Function `handleSubmit` of `SubmitReport` up to the point a `reports` insert is
issued: bail out when there is no user, pass
`location: location || undefined` (the empty raw string becomes absent),
run `reportSchema.safeParse` and stop with the first error message on
failure, otherwise issue the insert with the validated data,
`location: validationResult.data.location || null` (trimmed-empty becomes
NULL) and no status column.  The image upload is elided: the payload takes
the resulting public URL, which the validation path never reaches. -/
def handleSubmit (user : Option UserId) (title category description location : String)
    (imageUrl : Option String) : SubmitOutcome :=
  match user with
  | none => .noUser
  | some uid =>
    let locArg : Option String := if location = "" then none else some location
    match reportSchemaParse title category description locArg with
    | .error msg => .validationFailed msg
    | .ok v =>
      .insertIssued
        { title := v.title
          category := v.category
          description := v.description
          location := match v.location with
            | none => none
            | some s => if s = "" then none else some s
          image_url := imageUrl
          status := none
          user_id := uid }

/-- The four counters computed by `fetchStats` in `Dashboard.tsx`. -/
structure Stats where
  total : Nat
  verified : Nat
  pending : Nat
  rejected : Nat
deriving DecidableEq, Repr

/-- Function `fetchStats` of `Dashboard.tsx` on the fetched status column values
(strings in the client): `total` is the length of the data, each counter the
length of the filter on the corresponding literal. -/
def fetchStats (data : List String) : Stats :=
  { total := data.length
    verified := (data.filter fun r => r == "verified").length
    pending := (data.filter fun r => r == "pending").length
    rejected := (data.filter fun r => r == "rejected").length }

/-! ## Theorems -/

/-- C4: a read of `reports` returns a row exactly when the row's status is
`verified`, or the caller is the row's owner, or the caller holds the
`MODERATOR` role; a denied row is simply filtered out of the result set
(the select is total and never an error). -/
theorem report_read_iff_policy (roles : List UserRoleRow) (uid : Option UserId)
    (db : List Report) (r : Report) :
    r ∈ selectReports roles uid db ↔
      r ∈ db ∧ (r.status = .verified ∨ uid = some r.user_id ∨
        has_role roles uid .MODERATOR = true) := by
  simp [selectReports, reportSelectUsing, List.mem_filter, or_assoc]

theorem length_eq_sum_three_filters (a b c : String) (hab : a ≠ b) (hac : a ≠ c)
    (hbc : b ≠ c) (data : List String) (h : ∀ s ∈ data, s = a ∨ s = b ∨ s = c) :
    data.length = (data.filter fun r => r == a).length +
      (data.filter fun r => r == b).length +
      (data.filter fun r => r == c).length := by
  induction data with
  | nil => rfl
  | cons x xs ih =>
    have hx := h x (List.mem_cons_self x xs)
    have ihx := ih fun s hs => h s (List.mem_cons_of_mem x hs)
    rcases hx with h1 | h1 | h1 <;> subst h1 <;>
      simp [List.filter_cons, hab, hac, hbc, Ne.symm hab, Ne.symm hac, Ne.symm hbc] <;>
      omega

/-- C10: when every fetched status is one of the three literals `pending`,
`verified`, `rejected`, the dashboard's total count equals the sum of its
verified, pending and rejected counts. -/
theorem dashboard_total_eq_sum (data : List String)
    (h : ∀ s ∈ data, s = "pending" ∨ s = "verified" ∨ s = "rejected") :
    (fetchStats data).total =
      (fetchStats data).verified + (fetchStats data).pending +
        (fetchStats data).rejected := by
  have := length_eq_sum_three_filters "verified" "pending" "rejected"
    (by decide) (by decide) (by decide) data
    (fun s hs => by rcases h s hs with h1 | h1 | h1 <;> simp [h1])
  simpa [fetchStats] using this

/-- C10 witness: the counts add up on a concrete fetched list. -/
theorem dashboard_total_eq_sum_witness :
    (∀ s ∈ ["pending", "verified", "verified", "rejected"],
      s = "pending" ∨ s = "verified" ∨ s = "rejected") ∧
    (fetchStats ["pending", "verified", "verified", "rejected"]).total =
      (fetchStats ["pending", "verified", "verified", "rejected"]).verified +
        (fetchStats ["pending", "verified", "verified", "rejected"]).pending +
        (fetchStats ["pending", "verified", "verified", "rejected"]).rejected :=
  ⟨by decide, dashboard_total_eq_sum _ (by decide)⟩

/-- C8: inserting a `user_roles` row whose `(user_id, role)` pair is already
present fails with the unique-constraint integrity error and leaves the
table unchanged. -/
theorem duplicate_user_role_insert_fails (row : UserRoleRow) (db : List UserRoleRow)
    (h : ∃ r ∈ db, r.user_id = row.user_id ∧ r.role = row.role) :
    insertUserRoleRaw row db =
      .error "duplicate key value violates unique constraint user_roles_user_id_role_key" ∧
    applyRawInsert db row = db := by
  have hb : (db.any fun r => r.user_id == row.user_id && r.role == row.role) = true := by
    rcases h with ⟨r, hr, h1, h2⟩
    exact List.any_eq_true.mpr ⟨r, hr, by simp [h1, h2]⟩
  exact ⟨by simp [insertUserRoleRaw, hb], by simp [applyRawInsert, insertUserRoleRaw, hb]⟩

/-- C8 witness: a concrete duplicate `(user, role)` insert is refused and
the table is unchanged. -/
theorem duplicate_user_role_insert_fails_witness :
    (∃ r ∈ [UserRoleRow.mk 0 7 .USER 1], r.user_id = 7 ∧ r.role = AppRole.USER) ∧
    insertUserRoleRaw ⟨3, 7, .USER, 9⟩ [⟨0, 7, .USER, 1⟩] =
      .error "duplicate key value violates unique constraint user_roles_user_id_role_key" ∧
    applyRawInsert [⟨0, 7, .USER, 1⟩] ⟨3, 7, .USER, 9⟩ = [⟨0, 7, .USER, 1⟩] :=
  ⟨⟨⟨0, 7, .USER, 1⟩, by decide, rfl, rfl⟩,
   duplicate_user_role_insert_fails ⟨3, 7, .USER, 9⟩ [⟨0, 7, .USER, 1⟩]
     ⟨⟨0, 7, .USER, 1⟩, by decide, rfl, rfl⟩⟩

/-- C9: a permitted update stores `updated_at = now()`, overriding any
client-supplied value (the payload below may carry one), the stored row is
exactly the trigger applied to the SET result, and the trigger itself
changes no field other than `updated_at`. -/
theorem update_forces_updated_at (roles : List UserRoleRow) (uid : Option UserId)
    (p : ReportUpdatePayload) (now : Timestamp) (r out : Report)
    (hok : updateReport roles uid p now r = .ok out) :
    out.updated_at = now ∧
    out = update_updated_at_column now (applyUpdate p r) ∧
    ∀ t (new : Report),
      (update_updated_at_column t new).updated_at = t ∧
      (update_updated_at_column t new).id = new.id ∧
      (update_updated_at_column t new).title = new.title ∧
      (update_updated_at_column t new).category = new.category ∧
      (update_updated_at_column t new).description = new.description ∧
      (update_updated_at_column t new).image_url = new.image_url ∧
      (update_updated_at_column t new).location = new.location ∧
      (update_updated_at_column t new).status = new.status ∧
      (update_updated_at_column t new).user_id = new.user_id ∧
      (update_updated_at_column t new).verified_by = new.verified_by ∧
      (update_updated_at_column t new).verified_at = new.verified_at ∧
      (update_updated_at_column t new).created_at = new.created_at := by
  simp only [updateReport] at hok
  split at hok
  · split at hok
    · injection hok with h
      subst h
      exact ⟨rfl, rfl, fun t new =>
        ⟨rfl, rfl, rfl, rfl, rfl, rfl, rfl, rfl, rfl, rfl, rfl, rfl⟩⟩
    · simp at hok
  · simp at hok

/-- C9 witness: a concrete permitted update with a client-supplied
`updated_at` of 3 stores `updated_at = 9`, the time of the update. -/
theorem update_forces_updated_at_witness :
    updateReport [⟨0, 1, .MODERATOR, 0⟩] (some 1) { updated_at := some 3 } 9
      ⟨1, "t", .other, "d", none, none, .pending, 2, none, none, 0, 0⟩ =
      .ok ⟨1, "t", .other, "d", none, none, .pending, 2, none, none, 0, 9⟩ ∧
    (⟨1, "t", .other, "d", none, none, .pending, 2, none, none, 0, 9⟩ : Report).updated_at = 9 :=
  ⟨rfl, (update_forces_updated_at [⟨0, 1, .MODERATOR, 0⟩] (some 1) { updated_at := some 3 } 9
    ⟨1, "t", .other, "d", none, none, .pending, 2, none, none, 0, 0⟩
    ⟨1, "t", .other, "d", none, none, .pending, 2, none, none, 0, 9⟩ rfl).1⟩

/-- C1 counterexample: a moderator re-issuing `rejected` on an
already-rejected report is permitted by the policies and silently succeeds
(only `updated_at` moves), contradicting the claim that it must fail. -/
theorem moderator_rereject_succeeds :
    updateReport [⟨0, 1, .MODERATOR, 0⟩] (some 1) (updateStatusPayload .rejected) 5
      ⟨10, "pothole", .road_damage, "d", none, none, .rejected, 2, some 1, some 3, 0, 3⟩ =
      .ok ⟨10, "pothole", .road_damage, "d", none, none, .rejected, 2, some 1, some 3, 0, 5⟩ :=
  rfl

/-- C1 amended: status starts at `pending` when the insert payload omits it;
a successful update by a caller without `MODERATOR` leaves status `pending`
(so only moderators can change status), but the moderator path does not
restrict the current status — a moderator status update, in particular
re-issuing `rejected`, succeeds on a report in any state, terminal states
included. -/
theorem status_change_requires_moderator :
    (∀ (p : ReportInsertPayload) (id : Nat) (now : Timestamp), p.status = none →
      (applyReportDefaults p id now).status = .pending) ∧
    (∀ roles uid p now r out, has_role roles uid .MODERATOR = false →
      updateReport roles uid p now r = .ok out →
      out.status = .pending ∧ r.status = .pending) ∧
    (∀ roles uid now r, has_role roles uid .MODERATOR = true →
      updateReport roles uid (updateStatusPayload .rejected) now r =
        .ok (update_updated_at_column now
          (applyUpdate (updateStatusPayload .rejected) r))) := by
  refine ⟨?_, ?_, ?_⟩
  · intro p id now h
    simp [applyReportDefaults, h]
  · intro roles uid p now r out hmod hok
    simp only [updateReport] at hok
    split at hok
    · rename_i h1
      split at hok
      · rename_i h2
        injection hok with h
        subst h
        simp only [reportUpdatePolicies, hmod, Bool.or_false, Bool.and_eq_true,
          beq_iff_eq] at h1 h2
        exact ⟨h2.2, h1.2⟩
      · simp at hok
    · simp at hok
  · intro roles uid now r hmod
    simp [updateReport, reportUpdatePolicies, hmod]

/-- C1 witness: the amended statement at concrete inputs — a default insert
is pending, an owner's content edit keeps status pending, and a moderator
moves a verified report back to rejected. -/
theorem status_change_requires_moderator_witness :
    (applyReportDefaults ⟨"t", .other, "d", none, none, none, 2⟩ 1 0).status = .pending ∧
    ((⟨1, "u", .other, "d", none, none, .pending, 2, none, none, 0, 4⟩ : Report).status
        = .pending ∧
      (⟨1, "t", .other, "d", none, none, .pending, 2, none, none, 0, 0⟩ : Report).status
        = .pending) ∧
    updateReport [⟨0, 1, .MODERATOR, 0⟩] (some 1) (updateStatusPayload .rejected) 5
      ⟨9, "x", .other, "d", none, none, .verified, 2, some 1, some 2, 0, 2⟩ =
      .ok (update_updated_at_column 5 (applyUpdate (updateStatusPayload .rejected)
        ⟨9, "x", .other, "d", none, none, .verified, 2, some 1, some 2, 0, 2⟩)) :=
  ⟨status_change_requires_moderator.1 ⟨"t", .other, "d", none, none, none, 2⟩ 1 0 rfl,
   status_change_requires_moderator.2.1 [] (some 2) { title := some "u" } 4
     ⟨1, "t", .other, "d", none, none, .pending, 2, none, none, 0, 0⟩
     ⟨1, "u", .other, "d", none, none, .pending, 2, none, none, 0, 4⟩ rfl rfl,
   status_change_requires_moderator.2.2 [⟨0, 1, .MODERATOR, 0⟩] (some 1) 5
     ⟨9, "x", .other, "d", none, none, .verified, 2, some 1, some 2, 0, 2⟩ rfl⟩

/-- C2 counterexample: the moderation page's status update (`update
({ status })`) by a moderator succeeds and changes status to `verified`,
yet the stored row keeps `verified_by = NULL` and `verified_at = NULL` —
nothing stamps the reviewer with the transition. -/
theorem moderator_verify_leaves_reviewer_null :
    updateReport [⟨0, 1, .MODERATOR, 0⟩] (some 1) (updateStatusPayload .verified) 7
      ⟨11, "t", .other, "d", none, none, .pending, 2, none, none, 0, 0⟩ =
      .ok ⟨11, "t", .other, "d", none, none, .verified, 2, none, none, 0, 7⟩ :=
  rfl

/-- C2 amended: an update by a caller holding `MODERATOR` succeeds whatever
the report's current status; but the status update issued by the moderation
page sets only the status column, leaving `verified_by` and `verified_at`
unchanged rather than stamped with the transition. -/
theorem moderator_update_succeeds_without_stamp :
    (∀ roles uid (p : ReportUpdatePayload) now r, has_role roles uid .MODERATOR = true →
      updateReport roles uid p now r =
        .ok (update_updated_at_column now (applyUpdate p r))) ∧
    (∀ roles uid s now r out,
      updateReport roles uid (updateStatusPayload s) now r = .ok out →
      out.status = s ∧ out.verified_by = r.verified_by ∧
        out.verified_at = r.verified_at) := by
  constructor
  · intro roles uid p now r hmod
    simp [updateReport, reportUpdatePolicies, hmod]
  · intro roles uid s now r out hok
    simp only [updateReport] at hok
    split at hok
    · split at hok
      · injection hok with h
        subst h
        exact ⟨rfl, rfl, rfl⟩
      · simp at hok
    · simp at hok

/-- C2 witness: the amended statement at concrete inputs — a moderator
update of a rejected report succeeds, and a concrete status update leaves
the reviewer columns unchanged. -/
theorem moderator_update_succeeds_without_stamp_witness :
    updateReport [⟨0, 4, .MODERATOR, 0⟩] (some 4) (updateStatusPayload .verified) 8
      ⟨12, "w", .water_cut, "d", none, none, .rejected, 3, none, none, 0, 1⟩ =
      .ok (update_updated_at_column 8 (applyUpdate (updateStatusPayload .verified)
        ⟨12, "w", .water_cut, "d", none, none, .rejected, 3, none, none, 0, 1⟩)) ∧
    ((⟨12, "w", .water_cut, "d", none, none, .verified, 3, none, none, 0, 8⟩ : Report).status
        = .verified ∧
      (⟨12, "w", .water_cut, "d", none, none, .verified, 3, none, none, 0, 8⟩ : Report).verified_by
        = (⟨12, "w", .water_cut, "d", none, none, .rejected, 3, none, none, 0, 1⟩ : Report).verified_by ∧
      (⟨12, "w", .water_cut, "d", none, none, .verified, 3, none, none, 0, 8⟩ : Report).verified_at
        = (⟨12, "w", .water_cut, "d", none, none, .rejected, 3, none, none, 0, 1⟩ : Report).verified_at) :=
  ⟨moderator_update_succeeds_without_stamp.1 [⟨0, 4, .MODERATOR, 0⟩] (some 4)
     (updateStatusPayload .verified) 8
     ⟨12, "w", .water_cut, "d", none, none, .rejected, 3, none, none, 0, 1⟩ rfl,
   moderator_update_succeeds_without_stamp.2 [⟨0, 4, .MODERATOR, 0⟩] (some 4) .verified 8
     ⟨12, "w", .water_cut, "d", none, none, .rejected, 3, none, none, 0, 1⟩
     ⟨12, "w", .water_cut, "d", none, none, .verified, 3, none, none, 0, 8⟩ rfl⟩

/-- C3 counterexample: an authenticated caller inserting a report for
themselves with an explicit `status: 'verified'` in the payload passes the
insert policy (which only checks ownership) and the row is stored with
status `verified` — the column `DEFAULT 'pending'` does not override a
client-supplied value. -/
theorem client_supplied_status_is_stored :
    insertReport (some 2)
      { title := "t", category := .other, description := "d", image_url := none,
        location := none, status := some .verified, user_id := 2 } 12 4 [] =
      .ok [⟨12, "t", .other, "d", none, none, .verified, 2, none, none, 4, 4⟩] :=
  rfl

/-- C3 amended: for every create request by an authenticated caller whose
proposed owner equals their identity and whose payload omits the status
column — as every request issued by the submission flow does — the insert
succeeds and the stored status is `pending`. -/
theorem create_without_status_stores_pending :
    (∀ uid (p : ReportInsertPayload) (id : Nat) (now : Timestamp) (db : List Report),
      p.status = none → uid = some p.user_id →
      insertReport uid p id now db = .ok (db ++ [applyReportDefaults p id now]) ∧
      (applyReportDefaults p id now).status = .pending) ∧
    (∀ u title category description location imageUrl payload,
      handleSubmit (some u) title category description location imageUrl =
        .insertIssued payload → payload.status = none) := by
  constructor
  · intro uid p id now db hs hu
    subst hu
    refine ⟨?_, by simp [applyReportDefaults, hs]⟩
    simp [insertReport, reportInsertCheck, applyReportDefaults]
  · intro u title category description location imageUrl payload h
    simp only [handleSubmit] at h
    split at h
    · simp at h
    · rename_i v _
      injection h with h
      subst h
      rfl

/-- C3 witness: the amended statement at concrete inputs — a status-less
insert for oneself succeeds with a pending row, and a concrete submission
issues a status-less payload. -/
theorem create_without_status_stores_pending_witness :
    (insertReport (some 3) ⟨"t", .power_outage, "d", none, none, none, 3⟩ 20 6 [] =
        .ok [applyReportDefaults ⟨"t", .power_outage, "d", none, none, none, 3⟩ 20 6] ∧
      (applyReportDefaults ⟨"t", .power_outage, "d", none, none, none, 3⟩ 20 6).status
        = .pending) ∧
    ({ title := "t", category := .other, description := "d", location := none,
        image_url := none, status := none, user_id := 5 } : ReportInsertPayload).status
      = none :=
  ⟨create_without_status_stores_pending.1 (some 3)
     ⟨"t", .power_outage, "d", none, none, none, 3⟩ 20 6 [] rfl rfl,
   create_without_status_stores_pending.2 5 "t" "other" "d" "" none
     { title := "t", category := .other, description := "d", location := none,
       image_url := none, status := none, user_id := 5 } rfl⟩

/-- C5: for a content edit (an update whose payload leaves the status column
absent) by the row's owner not holding `MODERATOR`: if the current status is
`pending` the update succeeds, and if it is not `pending` the same update is
refused. -/
theorem owner_update_only_while_pending (roles : List UserRoleRow)
    (uid : Option UserId) (p : ReportUpdatePayload) (now : Timestamp) (r : Report)
    (hown : uid = some r.user_id) (hmod : has_role roles uid .MODERATOR = false)
    (hcontent : p.status = none) :
    (r.status = .pending →
      updateReport roles uid p now r =
        .ok (update_updated_at_column now (applyUpdate p r))) ∧
    (r.status ≠ .pending → ∃ e, updateReport roles uid p now r = .error e) := by
  constructor
  · intro hp
    have hnew : (update_updated_at_column now (applyUpdate p r)).status = ReportStatus.pending := by
      simp [update_updated_at_column, applyUpdate, hcontent, hp]
    have hnewuid : (update_updated_at_column now (applyUpdate p r)).user_id = r.user_id := rfl
    simp [updateReport, reportUpdatePolicies, hown, hmod, hp, hnew, hnewuid]
  · intro hp
    have hpol : reportUpdatePolicies roles uid r = false := by
      simp [reportUpdatePolicies, hmod, hp]
    exact ⟨"row is not visible to UPDATE under row-level security",
      by simp [updateReport, hpol]⟩

/-- C5 witness: a concrete owner content edit succeeds on a pending report
and is refused on the same report once verified. -/
theorem owner_update_only_while_pending_witness :
    (updateReport [] (some 6) { description := some "new" } 9
        ⟨2, "t", .other, "d", none, none, .pending, 6, none, none, 0, 0⟩ =
      .ok (update_updated_at_column 9 (applyUpdate { description := some "new" }
        ⟨2, "t", .other, "d", none, none, .pending, 6, none, none, 0, 0⟩))) ∧
    (∃ e, updateReport [] (some 6) { description := some "new" } 9
        ⟨2, "t", .other, "d", none, none, .verified, 6, some 1, some 1, 0, 1⟩ =
      .error e) :=
  ⟨(owner_update_only_while_pending [] (some 6) { description := some "new" } 9
      ⟨2, "t", .other, "d", none, none, .pending, 6, none, none, 0, 0⟩
      rfl rfl rfl).1 rfl,
   (owner_update_only_while_pending [] (some 6) { description := some "new" } 9
      ⟨2, "t", .other, "d", none, none, .verified, 6, some 1, some 1, 0, 1⟩
      rfl rfl rfl).2 (by decide)⟩

theorem reportSchemaParse_ok_bounds (title category description : String)
    (location : Option String) (v : ValidatedReport)
    (h : reportSchemaParse title category description location = .ok v) :
    1 ≤ (jsTrim title).length ∧ (jsTrim title).length ≤ 200 ∧
      (parseCategory category).isSome = true ∧
      1 ≤ (jsTrim description).length ∧ (jsTrim description).length ≤ 2000 ∧
      ∀ l, location = some l → (jsTrim l).length ≤ 500 := by
  simp only [reportSchemaParse] at h
  split at h
  · exact absurd h (by simp)
  next h1 =>
    split at h
    · exact absurd h (by simp)
    next h2 =>
      split at h
      · exact absurd h (by simp)
      next c hc =>
        split at h
        · exact absurd h (by simp)
        next h3 =>
          split at h
          · exact absurd h (by simp)
          next h4 =>
            split at h
            · refine ⟨by omega, by omega, by simp [hc], by omega, by omega, ?_⟩
              intro l hl
              exact absurd hl (by simp)
            · split at h
              · exact absurd h (by simp)
              · refine ⟨by omega, by omega, by simp [hc], by omega, by omega, ?_⟩
                intro l hl
                injection hl with hl
                subst hl
                omega

/-- C6: a submission whose trimmed title is empty or longer than 200
characters, or whose trimmed description is empty or longer than 2000
characters, or whose trimmed location exceeds 500 characters, or whose
category is not one of the four enumerated literals, is rejected with a
field-level validation message and no insert request is issued (the
outcome is `validationFailed`, not `insertIssued`). -/
theorem invalid_submission_rejected_before_insert (u : UserId)
    (title category description location : String) (imageUrl : Option String)
    (h : (jsTrim title).length = 0 ∨ 200 < (jsTrim title).length ∨
      (jsTrim description).length = 0 ∨ 2000 < (jsTrim description).length ∨
      500 < (jsTrim location).length ∨
      ¬(category = "power_outage" ∨ category = "water_cut" ∨
        category = "road_damage" ∨ category = "other")) :
    (handleSubmit (some u) title category description location imageUrl).isValidationFailed
      = true := by
  simp only [handleSubmit]
  cases hp : reportSchemaParse title category description
      (if location = "" then none else some location) with
  | error msg => rfl
  | ok v =>
    exfalso
    obtain ⟨hb1, hb2, hb3, hb4, hb5, hb6⟩ :=
      reportSchemaParse_ok_bounds _ _ _ _ _ hp
    rcases h with h1 | h1 | h1 | h1 | h1 | h1
    · omega
    · omega
    · omega
    · omega
    · by_cases hemp : location = ""
      · rw [hemp] at h1
        have : (jsTrim "").length = 0 := rfl
        omega
      · have := hb6 location (by rw [if_neg hemp])
        omega
    · have hcat : parseCategory category = none := by
        unfold parseCategory
        split <;> simp_all
      rw [hcat] at hb3
      exact absurd hb3 (by simp)

/-- C6 witness: a submission with an empty title is rejected before any
insert is issued. -/
theorem invalid_submission_rejected_before_insert_witness :
    ((jsTrim "").length = 0 ∨ 200 < (jsTrim "").length ∨
      (jsTrim "desc").length = 0 ∨ 2000 < (jsTrim "desc").length ∨
      500 < (jsTrim "").length ∨
      ¬("power_outage" = "power_outage" ∨ "power_outage" = "water_cut" ∨
        "power_outage" = "road_damage" ∨ "power_outage" = "other")) ∧
    (handleSubmit (some 1) "" "power_outage" "desc" "" none).isValidationFailed = true :=
  ⟨Or.inl rfl,
   invalid_submission_rejected_before_insert 1 "" "power_outage" "desc" "" none (Or.inl rfl)⟩

theorem insertUserRole_ok_shape (uid : Option UserId) (row : UserRoleRow)
    (db db2 : List UserRoleRow) (h : insertUserRole uid row db = .ok db2) :
    uid = some row.user_id ∧ row.role = .USER ∧ db2 = db ++ [row] := by
  simp only [insertUserRole] at h
  split at h
  next hchk =>
    simp only [insertUserRoleRaw] at h
    split at h
    · exact absurd h (by simp)
    · injection h with h
      simp only [userRolesInsertCheck, Bool.and_eq_true, beq_iff_eq] at hchk
      exact ⟨hchk.1, hchk.2, h.symm⟩
  · exact absurd h (by simp)

theorem clientInsertStep_preserves_moderator (db : List UserRoleRow)
    (a : Option UserId × UserRoleRow) (u : Option UserId) :
    has_role (clientInsertStep db a) u .MODERATOR = has_role db u .MODERATOR := by
  unfold clientInsertStep
  cases h : insertUserRole a.1 a.2 db with
  | error e => rfl
  | ok db2 =>
    obtain ⟨-, hrole, hdb2⟩ := insertUserRole_ok_shape a.1 a.2 db db2 h
    subst hdb2
    simp [has_role, List.any_append, hrole]

/-- C7: the signup trigger grants a fresh identity exactly one `user_roles`
row, with role `USER`; a client insert into `user_roles` succeeds only for
the caller's own identity with role `USER`; and no sequence of client
insert attempts changes whether any identity holds `MODERATOR`. -/
theorem signup_role_and_no_moderator_escalation :
    (∀ (rowId : Nat) (newUserId : UserId) (now : Timestamp) (db : List UserRoleRow),
      (∀ r ∈ db, r.user_id ≠ newUserId) →
      handle_new_user rowId newUserId now db =
        .ok (db ++ [UserRoleRow.mk rowId newUserId .USER now]) ∧
      (db ++ [UserRoleRow.mk rowId newUserId .USER now]).filter
        (fun r : UserRoleRow => r.user_id == newUserId) =
        [UserRoleRow.mk rowId newUserId .USER now]) ∧
    (∀ uid row db db2, insertUserRole uid row db = .ok db2 →
      uid = some row.user_id ∧ row.role = .USER) ∧
    (∀ db attempts u, has_role (runClientInserts db attempts) u .MODERATOR =
      has_role db u .MODERATOR) := by
  refine ⟨?_, ?_, ?_⟩
  · intro rowId newUserId now db hfresh
    have hany : (db.any fun r => r.user_id == newUserId && r.role == AppRole.USER)
        = false := by
      rw [List.any_eq_false]
      intro r hr
      simp [hfresh r hr]
    constructor
    · simp [handle_new_user, insertUserRoleRaw, hany]
    · rw [List.filter_append]
      have hnil : db.filter (fun r : UserRoleRow => r.user_id == newUserId) = [] := by
        rw [List.filter_eq_nil_iff]
        intro r hr
        simp [hfresh r hr]
      rw [hnil]
      simp
  · intro uid row db db2 h
    exact ⟨(insertUserRole_ok_shape uid row db db2 h).1,
      (insertUserRole_ok_shape uid row db db2 h).2.1⟩
  · intro db attempts u
    induction attempts generalizing db with
    | nil => rfl
    | cons a as ih =>
      calc has_role (runClientInserts db (a :: as)) u .MODERATOR
          = has_role (runClientInserts (clientInsertStep db a) as) u .MODERATOR := rfl
        _ = has_role (clientInsertStep db a) u .MODERATOR := ih (clientInsertStep db a)
        _ = has_role db u .MODERATOR := clientInsertStep_preserves_moderator db a u

/-- C7 witness: on a fresh identity the trigger yields exactly one `USER`
row; a concrete own-identity `USER` insert is characterized; and a concrete
attempt to self-insert `MODERATOR` leaves the role lookup unchanged. -/
theorem signup_role_and_no_moderator_escalation_witness :
    (handle_new_user 0 5 1 [] = .ok [⟨0, 5, .USER, 1⟩] ∧
      ([] ++ [UserRoleRow.mk 0 5 .USER 1]).filter
        (fun r : UserRoleRow => r.user_id == 5) = [⟨0, 5, .USER, 1⟩]) ∧
    (some 5 = some (UserRoleRow.mk 1 5 .USER 2).user_id ∧
      (UserRoleRow.mk 1 5 .USER 2).role = .USER) ∧
    has_role (runClientInserts [⟨0, 5, .USER, 1⟩] [(some 5, ⟨1, 5, .MODERATOR, 2⟩)])
        (some 5) .MODERATOR =
      has_role [⟨0, 5, .USER, 1⟩] (some 5) .MODERATOR :=
  ⟨signup_role_and_no_moderator_escalation.1 0 5 1 [] (by simp),
   signup_role_and_no_moderator_escalation.2.1 (some 5) ⟨1, 5, .USER, 2⟩ []
     [⟨1, 5, .USER, 2⟩] rfl,
   signup_role_and_no_moderator_escalation.2.2 [⟨0, 5, .USER, 1⟩]
     [(some 5, ⟨1, 5, .MODERATOR, 2⟩)] (some 5)⟩

end CitizenReportGrid
